import Mathlib

/-!
# Verification of the nostr-dvm orchestrator (`nostr_dvm/dvm.py`)

Shallow embedding of the event-ingestion / job-lifecycle / payment-settlement
state machine of the DVM class.  Python objects become Lean structures, the
in-memory job ledger (`self.job_list`) is threaded explicitly as a
`List JobToWatch`, and every network / wallet / database side effect is
recorded in an output trace (`Out`).  External collaborators (the nostr
client, the LNBits wallet, the cashu redeemer, the user store, the worker
implementations) are abstracted as an `Ext` record of functions, exactly the
interfaces the code calls.
-/

namespace NostrDVM

/-- A nostr tag, as the code sees it: `tag.as_vec()` is a string vector. -/
abbrev Tag := List String

/-- A (decrypted) nostr event, with the fields `dvm.py` reads:
`id().to_hex()`, `pubkey().to_hex()`, `kind()`, `tags()`, `content()`,
`created_at().as_secs()`. -/
structure NEvent where
  id : String
  pubkey : String
  kind : Nat
  tags : List Tag
  content : String
  created_at : Nat
deriving DecidableEq

/-- Ledger entry, mirroring `JobToWatch(event=..., timestamp=..., amount=...,
is_paid=..., status=..., result=..., is_processed=..., bolt11=...,
payment_hash=..., expires=...)` from `utils/definitions.py` as constructed at
`dvm.py:424-431`. -/
structure JobToWatch where
  event : NEvent
  timestamp : Nat
  amount : Nat
  is_paid : Bool
  status : String
  result : String
  is_processed : Bool
  bolt11 : String
  payment_hash : String
  expires : Nat
deriving DecidableEq

/-- The per-worker descriptor fields `dvm.py` consults (`dvm.TASK`,
`dvm.KIND`, `dvm.FIX_COST`, `dvm.PER_UNIT_COST`, `dvm.NAME`). -/
structure DVMDescriptor where
  NAME : String
  TASK : String
  KIND : Nat
  FIX_COST : Nat
  PER_UNIT_COST : Nat
deriving DecidableEq

/-- The configuration fields `dvm.py` consults. -/
structure DVMConfig where
  PUBLIC_KEY : String
  SUPPORTED_DVMS : List DVMDescriptor
  SHOW_RESULT_BEFORE_PAYMENT : Bool
  LNBITS_INVOICE_KEY : String
  LNBITS_ADMIN_KEY : String
  USE_OWN_VENV : Bool

/-- The signing keys (`self.keys`): secret key and derived public key. -/
structure Keys where
  sk : String
  pk : String

/-- A user row of the external store (`get_or_add_user`). -/
structure User where
  npub : String
  name : String
  nip05 : String
  lud16 : String
  balance : Int
  iswhitelisted : Bool
  isblacklisted : Bool

/-- Modelled from the spec: event kind constants of `utils/definitions.py`
(not under src/).  Request kinds form the contiguous range
`[KIND_NIP90_EXTRACT_TEXT, KIND_NIP90_GENERIC]`; feedback events use
`KIND_FEEDBACK`; replies use `request.kind + 1000`. -/
def KIND_NIP90_EXTRACT_TEXT : Nat := 5000

/-- Modelled from the spec: upper end of the request kind range. -/
def KIND_NIP90_GENERIC : Nat := 5999

/-- Modelled from the spec: kind of feedback (reaction/status) events. -/
def KIND_FEEDBACK : Nat := 7000

/-- Modelled from the spec: direct-message kind. -/
def KIND_DM : Nat := 4

/-- Modelled from the spec: `EventDefinitions.ANY_RESULT` — the kinds of
reply events, i.e. request kinds shifted by 1000. -/
def isAnyResultKind (k : Nat) : Bool :=
  decide (KIND_NIP90_EXTRACT_TEXT + 1000 ≤ k) && decide (k ≤ KIND_NIP90_GENERIC + 1000)

/-- `tag.as_vec()[0]`: the tag name. -/
def tagName (t : Tag) : String := t.headD ""

/-- `tag.as_vec()[1]`: the tag value. -/
def tagValue (t : Tag) : String := t.getD 1 ""

/-- The Python loops `for tag in event.tags(): if tag.as_vec()[0] == name: v =
tag.as_vec()[1]` keep the last matching assignment. -/
def lastTagValue (tags : List Tag) (name : String) (dflt : String) : String :=
  tags.foldl (fun acc t => if tagName t = name then tagValue t else acc) dflt

/-- Model of Python's `int(\"...\")` on decimal digit strings (0 elsewhere;
the code only meets well-formed numerals on the paths we verify). -/
def parseNat (s : String) : Nat :=
  if s.data ≠ [] ∧ s.data.all (fun c => c.isDigit) then
    s.data.foldl (fun n c => n * 10 + (c.toNat - 48)) 0
  else 0

/-- Model of `json.dumps` on a list of tag vectors (`dvm.py:446-450`):
a concrete injective serialization. -/
def jsonDumpTags (tags : List Tag) : String :=
  "[" ++ String.intercalate "," (tags.map (fun t =>
    "[" ++ String.intercalate "," (t.map (fun s => "\"" ++ s ++ "\"")) ++ "]")) ++ "]"

/-- Model of the external `nostr_sdk.nip04_encrypt(secret_key, public_key,
content)`: an injective tagged encoding standing for the ciphertext, keeping
the keys it was produced with observable. -/
def nip04_encrypt (sk pk content : String) : String :=
  "nip04(" ++ sk ++ ";" ++ pk ++ ";" ++ content ++ ")"

/-- Model of the external `Event.as_json()` serialization: an injective
textual encoding of the event fields. -/
def eventAsJson (e : NEvent) : String :=
  "ev(" ++ e.id ++ ";" ++ e.pubkey ++ ";" ++ toString e.kind ++ ";" ++ e.content ++ ")"

/-- `original_event_as_str.replace(\"\\\\\", \"\")` at `dvm.py:350` removes
every backslash. -/
def stripBackslash (s : String) : String :=
  String.mk (s.data.filter (fun c => ¬ c = '\\'))

/-- Modelled from the spec: `build_status_reaction(status, task, amount,
content)` of `utils/output_utils.py` (not under src/).  Per section 4.5/7 of the
spec it returns the human-readable alt description and the reaction content of
a feedback event; when an explicit content is supplied (e.g. the generic
worker-error message, or a cashu diagnostic) that content is the reaction. -/
def build_status_reaction (status task : String) (_amount : Nat)
    (content : Option String) : String × String :=
  let alt := "NIP90 DVM task " ++ task ++ " status: " ++ status
  match content with
  | some c => (alt, c)
  | none => (alt, alt)

/-- Modelled from the spec: `get_amount_per_task(task, config, duration)` of
`utils/backend_utils.py` (not under src/).  Per section 4.6 step 4 of the spec the
price is `fix_cost + per_unit_cost * duration` for the matching worker, and
`None` when no worker matches the task. -/
def get_amount_per_task (cfg : DVMConfig) (task : String) (duration : Nat) : Option Nat :=
  match cfg.SUPPORTED_DVMS.find? (fun d => d.TASK == task) with
  | some d => some (d.FIX_COST + d.PER_UNIT_COST * duration)
  | none => none

/-- The external collaborators `dvm.py` calls, as the interfaces it uses
them through (spec section 1: out of scope, interfaces only). -/
structure Ext where
  /-- `check_and_decrypt_tags` (`utils/nostr_utils.py`): `none` = dropped. -/
  check_and_decrypt_tags : NEvent → Option NEvent
  /-- `get_or_add_user(db, hex_pubkey, ...)` of the user store. -/
  get_or_add_user : String → User
  /-- `get_task(event, client, dvm_config)` (`utils/backend_utils.py`). -/
  get_task : NEvent → String
  /-- `check_task_is_supported(event, ...)` returning `(supported, task)`. -/
  check_task_is_supported : Option NEvent → Bool × String
  /-- `input_data_file_duration(event, ...)`. -/
  input_data_file_duration : NEvent → Nat
  /-- `redeem_cashu(token, config, client, amount)` returning
  `(redeemed, message, total_amount, fees)`. -/
  redeem_cashu : String → Nat → Bool × String × Nat × Nat
  /-- `create_bolt11_ln_bits(amount, config)`; `.error` models a raised
  exception (caught at `dvm.py:420-421`). -/
  create_bolt11_ln_bits : Nat → Except String (String × String)
  /-- `get_event_by_id(hex_id, ...)`. -/
  get_event_by_id : String → Option NEvent
  /-- `parse_zap_event_tags(zap_event, ...)` returning
  `(invoice_amount, zapped_event, sender, message, anon)`; `.error` models a
  raised exception (caught at `dvm.py:264-265`). -/
  parse_zap_event_tags : NEvent → Except String (Nat × Option NEvent × String × String × Bool)
  /-- `dvm.create_request_from_nostr_event(...)`; `.error` = exception. -/
  create_request_from_nostr_event : NEvent → Except String String
  /-- `dvm.process(request_form)` (in-process worker run); `.error` = exception. -/
  process : DVMDescriptor → String → Except String String
  /-- subprocess mode (`USE_OWN_VENV`): the contents read back from the
  worker's output file; `.error` = a raised OS/IO exception. -/
  venv_result : DVMDescriptor → String → Except String String
  /-- `dvm.post_process(result, event)`; `.error e` = exception with text `e`. -/
  post_process : DVMDescriptor → String → NEvent → Except String String
  /-- `zaprequest(lud16, amount, memo, ...)`: `none` models the `None`
  return (receiver has no lightning address). -/
  zaprequest : String → Nat → String → Option String
  /-- `parse_amount_from_bolt11_invoice(bolt11)`. -/
  parse_amount_from_bolt11 : String → Nat
  /-- `Timestamp.now().as_secs()`. -/
  timestamp_now : Nat

/-- One observable side effect of the orchestrator. -/
inductive Out where
  /-- `send_event` of a feedback (kind 7000) event built by
  `send_job_status_reaction`; `status` and the plaintext `reaction` are
  recorded alongside the event for convenient observation. -/
  | feedback (status : String) (reaction : String) (ev : NEvent)
  /-- `send_event` of a reply (kind `request.kind + 1000`) event built by
  `send_nostr_reply_event`. -/
  | reply (ev : NEvent)
  /-- `update_sql_table(db, npub, balance, iswhitelisted, isblacklisted,
  nip05, lud16, name, lastactive)`. -/
  | updateSql (npub : String) (balance : Int) (iswl isbl : Bool)
      (nip05 lud16 name : String) (lastactive : Nat)
  /-- `update_user_balance(db, sender, invoice_amount, ...)`. -/
  | updateBalance (npub : String) (amount : Nat)
  /-- a `zaprequest(lud16, amount, memo, ...)` refund call. -/
  | zapReq (lud16 : String) (amount : Nat) (memo : String)
  /-- a `pay_bolt11_ln_bits(bolt11, config)` call (its own failure is caught
  and swallowed at `dvm.py:343-346` / `522-525`, so no result is recorded). -/
  | payBolt11 (bolt11 : String)
deriving DecidableEq

/-- Is this output a reply event? -/
def isReply : Out → Bool
  | .reply _ => true
  | _ => false

/-- Is this output a feedback with the given status? -/
def isFeedbackStatus (s : String) : Out → Bool
  | .feedback st _ _ => st == s
  | _ => false

/-- Is this output a `pay_bolt11_ln_bits` call? -/
def isPayBolt : Out → Bool
  | .payBolt11 _ => true
  | _ => false

/-- Is this output an error feedback with exactly the given reaction text? -/
def isErrorFeedbackMsg (m : String) : Out → Bool
  | .feedback s r _ => s == "error" && r == m
  | _ => false

/-- `dvm.py:406-411`: for `success`/`error` the emitter overrides its
`is_paid`/`amount` arguments from the first matching ledger entry. -/
def statusOverride (st : List JobToWatch) (ev : NEvent) (status : String)
    (is_paid : Bool) (amount : Nat) : Bool × Nat :=
  if status = "success" ∨ status = "error" then
    match st.find? (fun x => x.event == ev) with
    | some x => (x.is_paid, x.amount)
    | none => (is_paid, amount)
  else (is_paid, amount)

/-- `dvm.py:413-421`: invoice creation for `payment-required` (or unpaid
`processing`) when an invoice key is configured; a raised exception is
swallowed, leaving `bolt11` and `payment_hash` empty. -/
def statusInvoice (ext : Ext) (cfg : DVMConfig) (status : String)
    (is_paid : Bool) (amount : Nat) : String × String :=
  if (status = "payment-required" ∨ (status = "processing" ∧ is_paid = false)) ∧
      cfg.LNBITS_INVOICE_KEY ≠ "" then
    match ext.create_bolt11_ln_bits amount with
    | .ok p => p
    | .error _ => ("", "")
  else ("", "")

/-- Everything `send_job_status_reaction` (`dvm.py:380-463`) computes: the
new ledger, the inner (serialized) tag list, the outer tag set, the event
content and the plaintext reaction. -/
structure StatusBuild where
  newList : List JobToWatch
  innerTags : List Tag
  outerTags : List Tag
  content : String
  reaction : String

/-- Faithful embedding of the body of `send_job_status_reaction`
(`dvm.py:380-463`). -/
def buildStatus (ext : Ext) (cfg : DVMConfig) (keys : Keys)
    (st : List JobToWatch) (ev : NEvent) (status : String)
    (is_paid0 : Bool) (amount0 : Nat) (content0 : Option String) : StatusBuild :=
  let task := ext.get_task ev
  let ar := build_status_reaction status task amount0 content0
  -- dvm.py:394-399: one "encrypted" marker appended per encrypted tag
  let encList := ev.tags.filter (fun t => tagName t = "encrypted")
  let encrypted : Bool := ¬ encList = []
  -- dvm.py:391,401-404: p goes to the outer set when encrypted
  let reply_tags1 : List Tag :=
    if encrypted then [["e", ev.id], ["alt", ar.1], ["status", status]]
    else [["e", ev.id], ["alt", ar.1], ["status", status], ["p", ev.pubkey]]
  let encryption_tags : List Tag :=
    if encrypted then encList.map (fun _ => ["encrypted"]) ++ [["p", ev.pubkey]]
    else encList.map (fun _ => ["encrypted"])
  let op := statusOverride st ev status is_paid0 amount0
  let is_paid := op.1
  let amount := op.2
  let inv := statusInvoice ext cfg status is_paid amount
  let expires := ev.created_at + 60 * 60 * 24
  -- dvm.py:423-431: append only when no entry for this event exists
  let newList :=
    if st.any (fun x => x.event == ev) then st
    else st ++ [⟨ev, ev.created_at, amount, is_paid, status, "", false, inv.1, inv.2, expires⟩]
  -- dvm.py:433-441: amount tag (millisats)
  let reply_tags2 :=
    if status = "payment-required" ∨ status = "payment-rejected" ∨
        (status = "processing" ∧ is_paid = false) ∨ (status = "success" ∧ is_paid = false) then
      if cfg.LNBITS_INVOICE_KEY ≠ "" then reply_tags1 ++ [["amount", toString (amount * 1000), inv.1]]
      else reply_tags1 ++ [["amount", toString (amount * 1000)]]
    else reply_tags1
  -- dvm.py:443-456: encrypted requests get the serialized tag list as content
  if encrypted then
    let inner := reply_tags2 ++ [["content", ar.2]]
    { newList := newList, innerTags := inner, outerTags := encryption_tags,
      content := nip04_encrypt keys.sk ev.pubkey (jsonDumpTags inner), reaction := ar.2 }
  else
    { newList := newList, innerTags := reply_tags2, outerTags := reply_tags2,
      content := ar.2, reaction := ar.2 }

/-- `send_job_status_reaction` (`dvm.py:380-463`): returns the new ledger and
the emitted feedback event (kind `KIND_FEEDBACK`, signed by our keys). -/
def send_job_status_reaction (ext : Ext) (cfg : DVMConfig) (keys : Keys)
    (st : List JobToWatch) (ev : NEvent) (status : String)
    (is_paid0 : Bool) (amount0 : Nat) (content0 : Option String) :
    List JobToWatch × Out :=
  let b := buildStatus ext cfg keys st ev status is_paid0 amount0 content0
  (b.newList, Out.feedback status b.reaction ⟨"", keys.pk, KIND_FEEDBACK, b.outerTags, b.content, 0⟩)

/-- `send_nostr_reply_event(content, original_event_as_str)`
(`dvm.py:348-378`): builds and sends the reply event of kind
`original_event.kind() + 1000`. -/
def send_nostr_reply_event (keys : Keys) (content : String) (original_event : NEvent) : Out :=
  let request_tag : Tag := ["request", stripBackslash (eventAsJson original_event)]
  let e_tag : Tag := ["e", original_event.id]
  let p_tag : Tag := ["p", original_event.pubkey]
  let alt_tag : Tag := ["alt", "This is the result of a NIP90 DVM AI task with kind " ++
    toString original_event.kind ++ ". The task was: " ++ original_event.content]
  let status_tag : Tag := ["status", "success"]
  -- dvm.py:357-362: one "encrypted" marker per encrypted tag of the request
  let encList := original_event.tags.filter (fun t => tagName t = "encrypted")
  let encrypted : Bool := ¬ encList = []
  -- dvm.py:364-368: the original i tags only when unencrypted
  let iTags := if encrypted then ([] : List Tag)
    else original_event.tags.filter (fun t => tagName t = "i")
  let reply_tags := [request_tag, e_tag, p_tag, alt_tag, status_tag] ++
    encList.map (fun _ => (["encrypted"] : Tag)) ++ iTags
  -- dvm.py:370-372: encrypt the result to the requester's key
  let content1 := if encrypted then nip04_encrypt keys.sk original_event.pubkey content
    else content
  Out.reply ⟨"", keys.pk, original_event.kind + 1000, reply_tags, content1, 0⟩

/-- The refund block of `do_work` (`dvm.py:513-525`): zap the requester back
when the job was paid and an admin wallet key is configured; the
`pay_bolt11_ln_bits` call only happens when `zaprequest` found a lightning
address, and its own failure is swallowed. -/
def refundOuts (ext : Ext) (cfg : DVMConfig) (ev : NEvent) (amount : Nat) : List Out :=
  if 0 < amount ∧ cfg.LNBITS_ADMIN_KEY ≠ "" then
    let user := ext.get_or_add_user ev.pubkey
    Out.zapReq user.lud16 amount "Couldn't finish job, returning sats" ::
      (match ext.zaprequest user.lud16 amount "Couldn't finish job, returning sats" with
       | none => []
       | some b => [Out.payBolt11 b])
  else []

/-- The body of the per-worker try block of `do_work` up to obtaining the raw
result (`dvm.py:475-500`): build the request form, then run the worker
in-process or read the subprocess output file (a result starting with
`Error:` is raised, `dvm.py:496-497`).  `.error` = the exception reaching the
outer handler. -/
def tryRunDvm (ext : Ext) (cfg : DVMConfig) (dvm : DVMDescriptor) (ev : NEvent) :
    Except String String := do
  let rf ← ext.create_request_from_nostr_event ev
  if cfg.USE_OWN_VENV then
    let r ← ext.venv_result dvm rf
    if r.startsWith "Error:" then .error "" else .ok r
  else
    ext.process dvm rf

/-- The `for dvm in self.dvm_config.SUPPORTED_DVMS` loop of `do_work`
(`dvm.py:471-527`).  A worker exception emits the generic error feedback,
attempts the refund and returns; a post-processing exception is caught by the
inner handler (`dvm.py:504-506`) and the loop continues. -/
def doWorkLoop (ext : Ext) (cfg : DVMConfig) (keys : Keys) (task : String)
    (ev : NEvent) (amount : Nat) :
    List DVMDescriptor → List JobToWatch → List JobToWatch × List Out
  | [], st => (st, [])
  | dvm :: rest, st =>
    if task = dvm.TASK then
      match tryRunDvm ext cfg dvm ev with
      | .ok result =>
        match ext.post_process dvm result ev with
        | .ok pp =>
          let o := send_nostr_reply_event keys pp ev
          let p := doWorkLoop ext cfg keys task ev amount rest st
          (p.1, o :: p.2)
        | .error e =>
          let q := send_job_status_reaction ext cfg keys st ev "error" true 0 (some e)
          let p := doWorkLoop ext cfg keys task ev amount rest q.1
          (p.1, q.2 :: p.2)
      | .error _ =>
        let q := send_job_status_reaction ext cfg keys st ev "error" true 0
          (some "An error occurred")
        (q.1, q.2 :: refundOuts ext cfg ev amount)
    else doWorkLoop ext cfg keys task ev amount rest st

/-- `do_work(job_event, amount)` (`dvm.py:465-527`). -/
def do_work (ext : Ext) (cfg : DVMConfig) (keys : Keys) (st : List JobToWatch)
    (job_event : NEvent) (amount : Nat) : List JobToWatch × List Out :=
  if (KIND_NIP90_EXTRACT_TEXT ≤ job_event.kind ∧ job_event.kind ≤ KIND_NIP90_GENERIC) ∨
      job_event.kind = KIND_DM then
    doWorkLoop ext cfg keys (ext.get_task job_event) job_event amount cfg.SUPPORTED_DVMS st
  else (st, [])

/-- The block of `check_and_return_event` at `dvm.py:320-346`.  Because the
`break` at line 318 sits inside the `if x.event == original_event` branch and
lines 320-346 are dedented to the loop body, this block runs once for every
ledger entry that does NOT match the completed event: it post-processes the
result and sends a reply event; a post-processing exception emits an error
feedback (the local `amount` is still 0 there, so the refund guard at line
333 never fires). -/
def strayPostProcess (ext : Ext) (cfg : DVMConfig) (keys : Keys) (data : String)
    (orig : NEvent) :
    List DVMDescriptor → List JobToWatch → List JobToWatch × List Out
  | [], st => (st, [])
  | dvm :: rest, st =>
    if ext.get_task orig = dvm.TASK then
      match ext.post_process dvm data orig with
      | .ok pp =>
        let o := send_nostr_reply_event keys pp orig
        let p := strayPostProcess ext cfg keys data orig rest st
        (p.1, o :: p.2)
      | .error e =>
        let q := send_job_status_reaction ext cfg keys st orig "error" true 0
          (some ("Error in Post-processing: " ++ e))
        let p := strayPostProcess ext cfg keys data orig rest q.1
        (p.1, q.2 :: p.2)
    else strayPostProcess ext cfg keys data orig rest st

/-- The `if x.event == original_event` branch of `check_and_return_event`
(`dvm.py:298-318`), acting on the entry `x` at index `i`: cache the result,
mark processed, then publish / emit success / remove according to
`SHOW_RESULT_BEFORE_PAYMENT` and `is_paid`.  The third positional argument of
the two `send_job_status_reaction` calls at lines 305 and 309 is the local
`amount` (an int standing where the `is_paid` parameter is declared), so its
Python truthiness is passed. -/
def completionMatch (ext : Ext) (cfg : DVMConfig) (keys : Keys) (data : String)
    (orig : NEvent) (st : List JobToWatch) (i : Nat) (x : JobToWatch) :
    List JobToWatch × List Out :=
  let x' := { x with result := data, is_processed := true }
  let st1 := st.set i x'
  let p :=
    if cfg.SHOW_RESULT_BEFORE_PAYMENT = true ∧ x.is_paid = false then
      let o1 := send_nostr_reply_event keys data orig
      let q := send_job_status_reaction ext cfg keys st1 orig "success"
        (decide (x.amount ≠ 0)) 0 none
      (q.1, [o1, q.2])
    else if cfg.SHOW_RESULT_BEFORE_PAYMENT = false ∧ x.is_paid = false then
      let q := send_job_status_reaction ext cfg keys st1 orig "success"
        (decide (x.amount ≠ 0)) 0 none
      (q.1, [q.2])
    else (st1, [])
  if cfg.SHOW_RESULT_BEFORE_PAYMENT = true ∧ x.is_paid = true then
    (p.1.eraseIdx i, p.2)
  else if cfg.SHOW_RESULT_BEFORE_PAYMENT = false ∧ x.is_paid = true then
    (p.1.eraseIdx i, p.2 ++ [send_nostr_reply_event keys data orig])
  else p

/-- The `for x in self.job_list` loop of `check_and_return_event`
(`dvm.py:297-346`) with Python iterator semantics: an index walks the evolving
list (the stray block may append at most one entry via its error feedback).
`fuel` bounds the iteration; `check_and_return_event` supplies enough. -/
def completionLoop (ext : Ext) (cfg : DVMConfig) (keys : Keys) (data : String)
    (orig : NEvent) :
    Nat → Nat → List JobToWatch → List Out → List JobToWatch × List Out
  | 0, _, st, outs => (st, outs)
  | fuel + 1, i, st, outs =>
    match st.get? i with
    | none => (st, outs)
    | some x =>
      if x.event = orig then
        let p := completionMatch ext cfg keys data orig st i x
        (p.1, outs ++ p.2)
      else
        let q := strayPostProcess ext cfg keys data orig cfg.SUPPORTED_DVMS st
        completionLoop ext cfg keys data orig fuel (i + 1) q.1 (outs ++ q.2)

/-- `check_and_return_event(data, original_event)` (`dvm.py:295-346`): the
worker-completion entry of the state machine. -/
def check_and_return_event (ext : Ext) (cfg : DVMConfig) (keys : Keys)
    (st : List JobToWatch) (data : String) (orig : NEvent) :
    List JobToWatch × List Out :=
  completionLoop ext cfg keys data orig (st.length + 2) 0 st []

/-- The `for tag in zapped_event.tags()` loop of `handle_zap`
(`dvm.py:201-211`): collect the quoted amount (`int(float(v)/1000)`, i.e.
millisats to sats) and resolve the referenced request through
`get_event_by_id` + `check_and_decrypt_tags`; `none` models the early
`return`s when the request cannot be resolved. -/
def zapTagLoop (ext : Ext) :
    List Tag → Nat → Option NEvent → Option (Nat × Option NEvent)
  | [], amount, job_event => some (amount, job_event)
  | t :: rest, amount, job_event =>
    if tagName t = "amount" then
      zapTagLoop ext rest (parseNat (tagValue t) / 1000) job_event
    else if tagName t = "e" then
      match ext.get_event_by_id (tagValue t) with
      | some je0 =>
        match ext.check_and_decrypt_tags je0 with
        | some je => zapTagLoop ext rest amount (some je)
        | none => none
      | none => none
    else zapTagLoop ext rest amount job_event

/-- The fulfilled-payment branch of `handle_zap` (`dvm.py:221-240`): emit
`processing` (which auto-appends a ledger entry when none exists), then act
on the first ledger entry matching the request: a processed entry is marked
paid and its cached result run through `check_and_return_event`; an
unprocessed entry is popped and the job dispatched; with no entry the job is
dispatched anyway. -/
def zapSettle (ext : Ext) (cfg : DVMConfig) (keys : Keys)
    (st : List JobToWatch) (je : NEvent) (invoice_amount : Nat) :
    List JobToWatch × List Out :=
  let q := send_job_status_reaction ext cfg keys st je "processing" true 0 none
  match q.1.findIdx? (fun x => x.event == je) with
  | some i =>
    match q.1.get? i with
    | some x =>
      if x.is_processed = true then
        -- dvm.py:230-232: mark paid, publish the cached result
        let p := check_and_return_event ext cfg keys
          (q.1.set i { x with is_paid := true }) x.result je
        (p.1, q.2 :: p.2)
      else
        -- dvm.py:233-237: pop and dispatch freshly
        let p := do_work ext cfg keys (q.1.eraseIdx i) je invoice_amount
        (p.1, q.2 :: p.2)
    | none => (q.1, [q.2])
  | none =>
    -- dvm.py:238-240: not in the list, dispatch anyway
    let p := do_work ext cfg keys q.1 je invoice_amount
    (p.1, q.2 :: p.2)

/-- `handle_zap(zap_event)` (`dvm.py:187-265`): the inbound payment entry of
the state machine. -/
def handle_zap (ext : Ext) (cfg : DVMConfig) (keys : Keys)
    (st : List JobToWatch) (zap_event : NEvent) : List JobToWatch × List Out :=
  match ext.parse_zap_event_tags zap_event with
  | .error _ => (st, [])
  | .ok (invoice_amount, zapped_event, sender, _message, anon) =>
    match zapped_event with
    | some ze =>
      if ze.kind = KIND_FEEDBACK then
        match zapTagLoop ext ze.tags 0 none with
        | none => (st, [])
        | some (amount, job_event) =>
          match job_event with
          | some je =>
            if (ext.check_task_is_supported (some je)).1 = true then
              if amount ≤ invoice_amount then zapSettle ext cfg keys st je invoice_amount
              else
                -- dvm.py:242-246: insufficiently paid
                let q := send_job_status_reaction ext cfg keys st je "payment-rejected"
                  false invoice_amount none
                (q.1, [q.2])
            else (st, [])
          | none => (st, [])
      else if isAnyResultKind ze.kind then (st, [])
      else if anon = false then (st, [Out.updateBalance sender invoice_amount])
      else (st, [])
    | none =>
      if anon = false then (st, [Out.updateBalance sender invoice_amount])
      else (st, [])

/-- The three payment paths of `handle_nip90_job_event` after the cashu step
(`dvm.py:128-183`): free/whitelisted, balance debit, payment-required. -/
def nip90Paths (ext : Ext) (cfg : DVMConfig) (keys : Keys) (st : List JobToWatch)
    (ev : NEvent) (user : User) (amount : Nat)
    (task_is_free cashu_redeemed : Bool) (p_tag_str : String) :
    List JobToWatch × List Out :=
  if (user.iswhitelisted = true ∨ task_is_free = true ∨ cashu_redeemed = true) ∧
      (p_tag_str = "" ∨ p_tag_str = cfg.PUBLIC_KEY) then
    -- dvm.py:129-141: free path
    let q := send_job_status_reaction ext cfg keys st ev "processing" true 0 none
    let amount' := if user.iswhitelisted = true ∨ task_is_free = true then 0 else amount
    let p := do_work ext cfg keys q.1 ev amount'
    (p.1, q.2 :: p.2)
  else if p_tag_str = cfg.PUBLIC_KEY ∧ (amount : Int) ≤ user.balance then
    -- dvm.py:143-157: balance path
    let balance := max (user.balance - (amount : Int)) 0
    let dbOut := Out.updateSql user.npub balance user.iswhitelisted user.isblacklisted
      user.nip05 user.lud16 user.name ext.timestamp_now
    let q := send_job_status_reaction ext cfg keys st ev "processing" true 0 none
    let p := do_work ext cfg keys q.1 ev amount
    (p.1, dbOut :: q.2 :: p.2)
  else if p_tag_str = "" ∨ p_tag_str = cfg.PUBLIC_KEY then
    -- dvm.py:160-181: payment required
    let bid := ev.tags.foldl (fun acc t => if tagName t = "bid" then parseNat (tagValue t) else acc) 0
    if 0 < bid then
      let bid_offer := bid / 1000
      if amount ≤ bid_offer then
        let q := send_job_status_reaction ext cfg keys st ev "payment-required" false amount none
        (q.1, [q.2])
      else (st, [])
    else
      let q := send_job_status_reaction ext cfg keys st ev "payment-required" false amount none
      (q.1, [q.2])
  else (st, [])

/-- `handle_nip90_job_event(nip90_event)` (`dvm.py:83-185`): the inbound
request entry of the state machine. -/
def handle_nip90_job_event (ext : Ext) (cfg : DVMConfig) (keys : Keys)
    (st : List JobToWatch) (ev0 : NEvent) : List JobToWatch × List Out :=
  match ext.check_and_decrypt_tags ev0 with
  | none => (st, [])
  | some ev =>
    let user := ext.get_or_add_user ev.pubkey
    let cashu := lastTagValue ev.tags "cashu" ""
    let p_tag_str := lastTagValue ev.tags "p" ""
    let ct := ext.check_task_is_supported (some ev)
    if user.isblacklisted = true then
      let q := send_job_status_reaction ext cfg keys st ev "error" true 0 none
      (q.1, [q.2])
    else if ct.1 = true then
      let duration := ext.input_data_file_duration ev
      match get_amount_per_task cfg ct.2 duration with
      | none => (st, [])
      | some amount =>
        let task_is_free := cfg.SUPPORTED_DVMS.any
          (fun d => d.TASK == ct.2 && d.FIX_COST == 0 && d.PER_UNIT_COST == 0)
        if cashu ≠ "" then
          let r := ext.redeem_cashu cashu amount
          if r.2.1 ≠ "success" then
            -- dvm.py:124-127: cashu redemption failed
            let q := send_job_status_reaction ext cfg keys st ev "error" false amount (some r.2.1)
            (q.1, [q.2])
          else nip90Paths ext cfg keys st ev user amount task_is_free r.1 p_tag_str
        else nip90Paths ext cfg keys st ev user amount task_is_free false p_tag_str
    else (st, [])

/-- The reaper body for one ledger entry whose invoice turned out paid
(`dvm.py:531-543`): flag it paid, emit `processing`, dispatch. -/
def reaperPayBody (ext : Ext) (cfg : DVMConfig) (keys : Keys)
    (st : List JobToWatch) (i : Nat) (x : JobToWatch) : List JobToWatch × List Out :=
  let st1 := st.set i { x with is_paid := true }
  let q := send_job_status_reaction ext cfg keys st1 x.event "processing" true 0 none
  let p := do_work ext cfg keys q.1 x.event (ext.parse_amount_from_bolt11 x.bolt11)
  (p.1, q.2 :: p.2)

/-- One ledger-mutating operation of the orchestrator: the two notification
handlers, the worker-completion callback, and the per-entry reaper actions
(pay-and-dispatch, expiry/removal, `dvm.py:530-548`). -/
inductive Step (ext : Ext) (cfg : DVMConfig) (keys : Keys) :
    List JobToWatch → List JobToWatch → Prop
  | nip90 (st : List JobToWatch) (ev : NEvent) :
      Step ext cfg keys st (handle_nip90_job_event ext cfg keys st ev).1
  | zap (st : List JobToWatch) (ev : NEvent) :
      Step ext cfg keys st (handle_zap ext cfg keys st ev).1
  | completion (st : List JobToWatch) (data : String) (ev : NEvent) :
      Step ext cfg keys st (check_and_return_event ext cfg keys st data ev).1
  | reaperPaid (st : List JobToWatch) (i : Nat) (x : JobToWatch)
      (h : st.get? i = some x) :
      Step ext cfg keys st (reaperPayBody ext cfg keys st i x).1
  | reaperRemove (st : List JobToWatch) (i : Nat) :
      Step ext cfg keys st (st.eraseIdx i)

/-- States of the job ledger reachable from the empty startup ledger
(`self.job_list = []`, `dvm.py:47`) through orchestrator operations. -/
inductive Reachable (ext : Ext) (cfg : DVMConfig) (keys : Keys) :
    List JobToWatch → Prop
  | init : Reachable ext cfg keys []
  | step {st st' : List JobToWatch} : Reachable ext cfg keys st →
      Step ext cfg keys st st' → Reachable ext cfg keys st'

/-- The C7 invariant: pairwise distinct request events in the ledger, i.e.
at most one `JobToWatch` per request event id. -/
def UniqueEvents (st : List JobToWatch) : Prop :=
  st.Pairwise (fun a b => a.event ≠ b.event)

/-! ## Concrete fixtures used by witnesses and counterexamples -/

/-- A worker descriptor for the task `translate`, priced 5 sats fix. -/
def dvmC : DVMDescriptor := ⟨"dvm1", "translate", 5000, 5, 0⟩

/-- A configuration with `SHOW_RESULT_BEFORE_PAYMENT = true`. -/
def cfgT : DVMConfig := ⟨"dvmpk", [dvmC], true, "invkey", "adminkey", false⟩

/-- A configuration with `SHOW_RESULT_BEFORE_PAYMENT = false`. -/
def cfgF : DVMConfig := ⟨"dvmpk", [dvmC], false, "invkey", "adminkey", false⟩

/-- Concrete signing keys. -/
def keysC : Keys := ⟨"sksk", "dvmpk"⟩

/-- A plain (unencrypted) request event for the supported task. -/
def evC : NEvent := ⟨"eid1", "alicepk", 5000, [["i", "hello", "text"]], "req", 100⟩

/-- A second, distinct request event. -/
def evC2 : NEvent := ⟨"eid2", "bobpk", 5000, [], "req2", 50⟩

/-- An encrypted request event (carries the `encrypted` marker tag). -/
def evEnc : NEvent := ⟨"eid3", "carolpk", 5000, [["encrypted"], ["i", "secret", "text"]], "ct", 70⟩

/-- A concrete instantiation of the external collaborators. -/
def extC : Ext where
  check_and_decrypt_tags := fun e => some e
  get_or_add_user := fun pk => ⟨pk, "alice", "", "alice@getalby.example", 100, false, false⟩
  get_task := fun _ => "translate"
  check_task_is_supported := fun _ => (true, "translate")
  input_data_file_duration := fun _ => 0
  redeem_cashu := fun _ _ => (false, "cashu could not be redeemed", 0, 0)
  create_bolt11_ln_bits := fun n => .ok ("lnbc" ++ toString n, "hash" ++ toString n)
  get_event_by_id := fun i => if i = "eid1" then some evC else none
  parse_zap_event_tags := fun _ => .error "no zap"
  create_request_from_nostr_event := fun _ => .ok "requestform"
  process := fun _ _ => .ok "outcome"
  venv_result := fun _ _ => .ok "outcome"
  post_process := fun _ r _ => .ok r
  zaprequest := fun lud a _ => if lud = "" then none else some ("refundbolt" ++ toString a)
  parse_amount_from_bolt11 := fun _ => 0
  timestamp_now := 1000

/-- A pending (unpaid, unprocessed) ledger entry for `evC2`. -/
def jOther : JobToWatch := ⟨evC2, 50, 7, false, "payment-required", "", false, "b", "h", 86450⟩

/-- A paid, not yet processed ledger entry for `evC`. -/
def jPaid : JobToWatch := ⟨evC, 100, 5, true, "processing", "", false, "", "", 86500⟩

/-- An unpaid, unprocessed ledger entry for `evC`. -/
def jUnpaid : JobToWatch := ⟨evC, 100, 5, false, "payment-required", "", false, "b", "h", 86500⟩

/-- An unpaid but already processed ledger entry for `evC`, result cached. -/
def jProc : JobToWatch := ⟨evC, 100, 5, false, "payment-required", "cached", true, "b", "h", 86500⟩

/-- A request carrying a `bid` tag of 1000 millisats (1 sat, below the
5-sat rate of `dvmC`). -/
def evBid : NEvent := ⟨"eid4", "alicepk", 5000, [["bid", "1000"]], "req", 100⟩

/-- A request with no bid tag. -/
def evNoBid : NEvent := ⟨"eid5", "alicepk", 5000, [], "req", 100⟩

/-- A request p-tagged to our own public key. -/
def evP : NEvent := ⟨"eid6", "alicepk", 5000, [["p", "dvmpk"]], "req", 100⟩

/-- An inbound zap event (kind 9735). -/
def zapEv : NEvent := ⟨"zid", "payerpk", 9735, [], "", 200⟩

/-- The zapped feedback event: kind 7000, quoting 5000 millisats for `evC`. -/
def feEv : NEvent := ⟨"fid", "dvmpk", 7000, [["amount", "5000"], ["e", "eid1"]], "", 100⟩

/-- `extC` with a zap parse yielding a 5-sat payment of `feEv`. -/
def extZ : Ext := { extC with parse_zap_event_tags := fun _ => .ok (5, some feEv, "payerpk", "", false) }

/-- `extC` with a zap parse yielding only 3 sats for `feEv` (underpayment). -/
def extZ3 : Ext := { extC with parse_zap_event_tags := fun _ => .ok (3, some feEv, "payerpk", "", false) }

/-- `extC` whose worker raises during `run`. -/
def extErr : Ext := { extC with process := fun _ _ => .error "boom" }

/-- The content of the nostr event carried by an output, when any. -/
def outContent : Out → String
  | .reply e => e.content
  | .feedback _ _ e => e.content
  | _ => ""

/-! ## Ledger lemmas -/

theorem send_job_status_reaction_fst (ext : Ext) (cfg : DVMConfig) (keys : Keys)
    (st : List JobToWatch) (ev : NEvent) (status : String)
    (ip : Bool) (am : Nat) (c0 : Option String) :
    (send_job_status_reaction ext cfg keys st ev status ip am c0).1 =
      (buildStatus ext cfg keys st ev status ip am c0).newList := rfl

theorem buildStatus_newList (ext : Ext) (cfg : DVMConfig) (keys : Keys)
    (st : List JobToWatch) (ev : NEvent) (status : String)
    (ip : Bool) (am : Nat) (c0 : Option String) :
    (buildStatus ext cfg keys st ev status ip am c0).newList =
      if st.any (fun x => x.event == ev) then st
      else st ++ [⟨ev, ev.created_at, (statusOverride st ev status ip am).2,
        (statusOverride st ev status ip am).1, status, "", false,
        (statusInvoice ext cfg status (statusOverride st ev status ip am).1
          (statusOverride st ev status ip am).2).1,
        (statusInvoice ext cfg status (statusOverride st ev status ip am).1
          (statusOverride st ev status ip am).2).2,
        ev.created_at + 60 * 60 * 24⟩] := by
  simp only [buildStatus]
  split <;> rfl

theorem buildStatus_newList_of_mem (ext : Ext) (cfg : DVMConfig) (keys : Keys)
    {st : List JobToWatch} {ev : NEvent} (status : String)
    (ip : Bool) (am : Nat) (c0 : Option String)
    (h : ∃ x ∈ st, x.event = ev) :
    (buildStatus ext cfg keys st ev status ip am c0).newList = st := by
  rw [buildStatus_newList]
  obtain ⟨x, hx, he⟩ := h
  have : st.any (fun x => x.event == ev) = true := List.any_eq_true.mpr ⟨x, hx, by simp [he]⟩
  simp [this]

theorem mem_buildStatus_newList (ext : Ext) (cfg : DVMConfig) (keys : Keys)
    (st : List JobToWatch) (ev : NEvent) (status : String)
    (ip : Bool) (am : Nat) (c0 : Option String) :
    ∃ x ∈ (buildStatus ext cfg keys st ev status ip am c0).newList, x.event = ev := by
  rw [buildStatus_newList]
  split
  · rename_i hany
    obtain ⟨x, hx, he⟩ := List.any_eq_true.mp hany
    exact ⟨x, hx, by simpa using he⟩
  · exact ⟨_, List.mem_append_right _ (List.mem_singleton_self _), rfl⟩

theorem uniqueEvents_buildStatus (ext : Ext) (cfg : DVMConfig) (keys : Keys)
    {st : List JobToWatch} (ev : NEvent) (status : String)
    (ip : Bool) (am : Nat) (c0 : Option String) (h : UniqueEvents st) :
    UniqueEvents (buildStatus ext cfg keys st ev status ip am c0).newList := by
  rw [buildStatus_newList]
  split
  · exact h
  · rename_i hany
    refine List.pairwise_append.mpr ⟨h, List.pairwise_singleton _ _, ?_⟩
    intro a ha b hb
    rw [List.mem_singleton] at hb
    subst hb
    have hf : st.any (fun x => x.event == ev) = false := by simpa using hany
    have := List.any_eq_false.mp hf a ha
    simpa using this

theorem uniqueEvents_sjsr (ext : Ext) (cfg : DVMConfig) (keys : Keys)
    {st : List JobToWatch} (ev : NEvent) (status : String)
    (ip : Bool) (am : Nat) (c0 : Option String) (h : UniqueEvents st) :
    UniqueEvents (send_job_status_reaction ext cfg keys st ev status ip am c0).1 :=
  uniqueEvents_buildStatus ext cfg keys ev status ip am c0 h

theorem uniqueEvents_set : ∀ (l : List JobToWatch) (i : Nat) (x x' : JobToWatch),
    UniqueEvents l → l.get? i = some x → x'.event = x.event →
    UniqueEvents (l.set i x')
  | [], i, x, x', _, hget, _ => by simp at hget
  | a :: t, 0, x, x', h, hget, he => by
    rw [List.get?_cons_zero] at hget
    injection hget with hax
    subst hax
    rcases List.pairwise_cons.mp h with ⟨ha, ht⟩
    exact List.pairwise_cons.mpr ⟨fun b hb => he ▸ ha b hb, ht⟩
  | a :: t, i + 1, x, x', h, hget, he => by
    rw [List.get?_cons_succ] at hget
    rcases List.pairwise_cons.mp h with ⟨ha, ht⟩
    refine List.pairwise_cons.mpr ⟨?_, uniqueEvents_set t i x x' ht hget he⟩
    intro b hb
    rcases List.mem_or_eq_of_mem_set hb with hb' | rfl
    · exact ha b hb'
    · rw [he]
      exact ha x (List.get?_mem hget)

theorem uniqueEvents_eraseIdx {l : List JobToWatch} (i : Nat) (h : UniqueEvents l) :
    UniqueEvents (l.eraseIdx i) :=
  List.Pairwise.sublist (List.eraseIdx_sublist l i) h

theorem uniqueEvents_doWorkLoop (ext : Ext) (cfg : DVMConfig) (keys : Keys)
    (task : String) (ev : NEvent) (amount : Nat) :
    ∀ (dvms : List DVMDescriptor) (st : List JobToWatch), UniqueEvents st →
      UniqueEvents (doWorkLoop ext cfg keys task ev amount dvms st).1
  | [], _, h => h
  | dvm :: rest, st, h => by
    rw [doWorkLoop]
    split
    · split
      · split
        · exact uniqueEvents_doWorkLoop ext cfg keys task ev amount rest st h
        · exact uniqueEvents_doWorkLoop ext cfg keys task ev amount rest _
            (uniqueEvents_sjsr ext cfg keys ev "error" true 0 _ h)
      · exact uniqueEvents_sjsr ext cfg keys ev "error" true 0 (some "An error occurred") h
    · exact uniqueEvents_doWorkLoop ext cfg keys task ev amount rest st h

theorem uniqueEvents_do_work (ext : Ext) (cfg : DVMConfig) (keys : Keys)
    {st : List JobToWatch} (ev : NEvent) (amount : Nat) (h : UniqueEvents st) :
    UniqueEvents (do_work ext cfg keys st ev amount).1 := by
  rw [do_work]
  split
  · exact uniqueEvents_doWorkLoop ext cfg keys _ ev amount _ st h
  · exact h

theorem uniqueEvents_strayPostProcess (ext : Ext) (cfg : DVMConfig) (keys : Keys)
    (data : String) (orig : NEvent) :
    ∀ (dvms : List DVMDescriptor) (st : List JobToWatch), UniqueEvents st →
      UniqueEvents (strayPostProcess ext cfg keys data orig dvms st).1
  | [], _, h => h
  | dvm :: rest, st, h => by
    rw [strayPostProcess]
    split
    · split
      · exact uniqueEvents_strayPostProcess ext cfg keys data orig rest st h
      · exact uniqueEvents_strayPostProcess ext cfg keys data orig rest _
          (uniqueEvents_sjsr ext cfg keys orig "error" true 0 _ h)
    · exact uniqueEvents_strayPostProcess ext cfg keys data orig rest st h

theorem uniqueEvents_completionMatch (ext : Ext) (cfg : DVMConfig) (keys : Keys)
    (data : String) (orig : NEvent) {st : List JobToWatch} {i : Nat} {x : JobToWatch}
    (h : UniqueEvents st) (hget : st.get? i = some x) :
    UniqueEvents (completionMatch ext cfg keys data orig st i x).1 := by
  have h1 : UniqueEvents (st.set i { x with result := data, is_processed := true }) :=
    uniqueEvents_set st i x _ h hget rfl
  rw [completionMatch]
  split
  · exact uniqueEvents_eraseIdx i (by
      split
      · exact uniqueEvents_sjsr ext cfg keys orig "success" _ 0 none h1
      · split
        · exact uniqueEvents_sjsr ext cfg keys orig "success" _ 0 none h1
        · exact h1)
  · split
    · exact uniqueEvents_eraseIdx i (by
        split
        · exact uniqueEvents_sjsr ext cfg keys orig "success" _ 0 none h1
        · split
          · exact uniqueEvents_sjsr ext cfg keys orig "success" _ 0 none h1
          · exact h1)
    · split
      · exact uniqueEvents_sjsr ext cfg keys orig "success" _ 0 none h1
      · split
        · exact uniqueEvents_sjsr ext cfg keys orig "success" _ 0 none h1
        · exact h1

theorem uniqueEvents_completionLoop (ext : Ext) (cfg : DVMConfig) (keys : Keys)
    (data : String) (orig : NEvent) :
    ∀ (fuel i : Nat) (st : List JobToWatch) (outs : List Out), UniqueEvents st →
      UniqueEvents (completionLoop ext cfg keys data orig fuel i st outs).1
  | 0, _, _, _, h => h
  | fuel + 1, i, st, outs, h => by
    simp only [completionLoop]
    split
    · exact h
    · rename_i x hget
      split
      · exact uniqueEvents_completionMatch ext cfg keys data orig h hget
      · exact uniqueEvents_completionLoop ext cfg keys data orig fuel (i + 1) _ _
          (uniqueEvents_strayPostProcess ext cfg keys data orig cfg.SUPPORTED_DVMS st h)

theorem uniqueEvents_check_and_return_event (ext : Ext) (cfg : DVMConfig) (keys : Keys)
    {st : List JobToWatch} (data : String) (orig : NEvent) (h : UniqueEvents st) :
    UniqueEvents (check_and_return_event ext cfg keys st data orig).1 :=
  uniqueEvents_completionLoop ext cfg keys data orig _ 0 st [] h

theorem uniqueEvents_zapSettle (ext : Ext) (cfg : DVMConfig) (keys : Keys)
    {st : List JobToWatch} (je : NEvent) (inv : Nat) (h : UniqueEvents st) :
    UniqueEvents (zapSettle ext cfg keys st je inv).1 := by
  have hq : UniqueEvents (send_job_status_reaction ext cfg keys st je
      "processing" true 0 none).1 :=
    uniqueEvents_sjsr ext cfg keys je "processing" true 0 none h
  rw [zapSettle]
  cases hfi : (send_job_status_reaction ext cfg keys st je "processing" true 0
      none).1.findIdx? (fun x => x.event == je) with
  | none =>
    dsimp only
    exact uniqueEvents_do_work ext cfg keys je inv hq
  | some i =>
    dsimp only
    cases hget : (send_job_status_reaction ext cfg keys st je "processing" true 0
        none).1.get? i with
    | none => exact hq
    | some x =>
      dsimp only
      split
      · exact uniqueEvents_check_and_return_event ext cfg keys x.result je
          (uniqueEvents_set _ i x _ hq hget rfl)
      · exact uniqueEvents_do_work ext cfg keys je inv (uniqueEvents_eraseIdx i hq)

theorem uniqueEvents_handle_zap (ext : Ext) (cfg : DVMConfig) (keys : Keys)
    {st : List JobToWatch} (zap : NEvent) (h : UniqueEvents st) :
    UniqueEvents (handle_zap ext cfg keys st zap).1 := by
  rw [handle_zap]
  cases ext.parse_zap_event_tags zap with
  | error e => exact h
  | ok v =>
    obtain ⟨inv, ze?, sender, msg, anon⟩ := v
    dsimp only
    cases ze? with
    | none =>
      dsimp only
      split <;> exact h
    | some ze =>
      dsimp only
      split
      · cases zapTagLoop ext ze.tags 0 none with
        | none => exact h
        | some p =>
          obtain ⟨amount, job?⟩ := p
          dsimp only
          cases job? with
          | none => exact h
          | some je =>
            dsimp only
            split
            · split
              · exact uniqueEvents_zapSettle ext cfg keys je inv h
              · exact uniqueEvents_sjsr ext cfg keys je "payment-rejected" false inv none h
            · exact h
      · split
        · exact h
        · split <;> exact h

theorem uniqueEvents_nip90Paths (ext : Ext) (cfg : DVMConfig) (keys : Keys)
    {st : List JobToWatch} (ev : NEvent) (user : User) (amount : Nat)
    (tif cr : Bool) (p_tag_str : String) (h : UniqueEvents st) :
    UniqueEvents (nip90Paths ext cfg keys st ev user amount tif cr p_tag_str).1 := by
  rw [nip90Paths]
  split
  · exact uniqueEvents_do_work ext cfg keys ev _
      (uniqueEvents_sjsr ext cfg keys ev "processing" true 0 none h)
  · split
    · exact uniqueEvents_do_work ext cfg keys ev _
        (uniqueEvents_sjsr ext cfg keys ev "processing" true 0 none h)
    · split
      · dsimp only
        split
        · split
          · exact uniqueEvents_sjsr ext cfg keys ev "payment-required" false amount none h
          · exact h
        · exact uniqueEvents_sjsr ext cfg keys ev "payment-required" false amount none h
      · exact h

theorem uniqueEvents_handle_nip90 (ext : Ext) (cfg : DVMConfig) (keys : Keys)
    {st : List JobToWatch} (ev0 : NEvent) (h : UniqueEvents st) :
    UniqueEvents (handle_nip90_job_event ext cfg keys st ev0).1 := by
  simp only [handle_nip90_job_event]
  split
  · exact h
  · split
    · exact uniqueEvents_sjsr ext cfg keys _ "error" true 0 none h
    · split
      · split
        · exact h
        · split
          · split
            · exact uniqueEvents_sjsr ext cfg keys _ "error" false _ _ h
            · exact uniqueEvents_nip90Paths ext cfg keys _ _ _ _ _ _ h
          · exact uniqueEvents_nip90Paths ext cfg keys _ _ _ _ _ _ h
      · exact h

theorem uniqueEvents_reaperPayBody (ext : Ext) (cfg : DVMConfig) (keys : Keys)
    {st : List JobToWatch} {i : Nat} {x : JobToWatch}
    (h : UniqueEvents st) (hget : st.get? i = some x) :
    UniqueEvents (reaperPayBody ext cfg keys st i x).1 := by
  rw [reaperPayBody]
  exact uniqueEvents_do_work ext cfg keys x.event _
    (uniqueEvents_sjsr ext cfg keys x.event "processing" true 0 none
      (uniqueEvents_set st i x _ h hget rfl))

theorem buildStatus_reaction (ext : Ext) (cfg : DVMConfig) (keys : Keys)
    (st : List JobToWatch) (ev : NEvent) (status : String)
    (ip : Bool) (am : Nat) (c0 : Option String) :
    (buildStatus ext cfg keys st ev status ip am c0).reaction =
      (build_status_reaction status (ext.get_task ev) am c0).2 := by
  simp only [buildStatus]
  split <;> rfl

theorem doWorkLoop_skip (ext : Ext) (cfg : DVMConfig) (keys : Keys) (task : String)
    (ev : NEvent) (amount : Nat) :
    ∀ (pre rest : List DVMDescriptor) (st : List JobToWatch),
      (∀ d ∈ pre, d.TASK ≠ task) →
      doWorkLoop ext cfg keys task ev amount (pre ++ rest) st =
        doWorkLoop ext cfg keys task ev amount rest st
  | [], _, _, _ => rfl
  | d :: pre, rest, st, h => by
    rw [List.cons_append, doWorkLoop,
      if_neg (fun hh => h d (List.mem_cons_self d pre) hh.symm)]
    exact doWorkLoop_skip ext cfg keys task ev amount pre rest st
      (fun d' hd' => h d' (List.mem_cons_of_mem d hd'))

theorem refundOuts_countP_pay (ext : Ext) (cfg : DVMConfig) (ev : NEvent) (amount : Nat) :
    (refundOuts ext cfg ev amount).countP isPayBolt =
      if 0 < amount ∧ cfg.LNBITS_ADMIN_KEY ≠ "" ∧
          (ext.zaprequest (ext.get_or_add_user ev.pubkey).lud16 amount
            "Couldn't finish job, returning sats").isSome then 1 else 0 := by
  rw [refundOuts]
  split
  · rename_i hc
    dsimp only
    cases hz : ext.zaprequest (ext.get_or_add_user ev.pubkey).lud16 amount
        "Couldn't finish job, returning sats" with
    | none => simp [hz, hc, List.countP_cons, isPayBolt]
    | some b => simp [hz, hc, List.countP_cons, isPayBolt]
  · rename_i hc
    rw [List.countP_nil, if_neg (fun hh => hc ⟨hh.1, hh.2.1⟩)]

theorem refundOuts_countP_errmsg (ext : Ext) (cfg : DVMConfig) (ev : NEvent)
    (amount : Nat) (m : String) :
    (refundOuts ext cfg ev amount).countP (isErrorFeedbackMsg m) = 0 := by
  rw [refundOuts]
  split
  · dsimp only
    cases ext.zaprequest (ext.get_or_add_user ev.pubkey).lud16 amount
        "Couldn't finish job, returning sats" with
    | none => rfl
    | some b => rfl
  · rfl

theorem get?_concat {α : Type} (l : List α) (a : α) :
    (l ++ [a]).get? l.length = some a := by
  rw [List.get?_eq_getElem?]
  exact List.getElem?_concat_length l a

theorem eraseIdx_concat {α : Type} (l : List α) (a : α) :
    (l ++ [a]).eraseIdx l.length = l := by
  rw [List.eraseIdx_append_of_length_le (Nat.le_refl _)]
  simp

theorem findIdx?_concat_of_forall {α : Type} (p : α → Bool) (l : List α) (a : α)
    (h : ∀ y ∈ l, p y = false) (ha : p a = true) :
    (l ++ [a]).findIdx? p = some l.length := by
  rw [List.findIdx?_append, List.findIdx?_eq_none_iff.mpr h]
  simp [ha]

theorem sjsr_fst_cons_head (ext : Ext) (cfg : DVMConfig) (keys : Keys)
    (y : JobToWatch) (rest : List JobToWatch) (ev : NEvent) (status : String)
    (ip : Bool) (am : Nat) (c0 : Option String) (hy : y.event = ev) :
    (send_job_status_reaction ext cfg keys (y :: rest) ev status ip am c0).1 =
      y :: rest := by
  rw [send_job_status_reaction_fst,
    buildStatus_newList_of_mem _ _ _ _ _ _ _ ⟨y, List.mem_cons_self _ _, hy⟩]

theorem completionLoop_match (ext : Ext) (cfg : DVMConfig) (keys : Keys)
    (data : String) (orig : NEvent) (fuel i : Nat) (st : List JobToWatch)
    (outs : List Out) (x : JobToWatch)
    (hget : st.get? i = some x) (hx : x.event = orig) :
    completionLoop ext cfg keys data orig (fuel + 1) i st outs =
      ((completionMatch ext cfg keys data orig st i x).1,
        outs ++ (completionMatch ext cfg keys data orig st i x).2) := by
  rw [completionLoop, hget]
  dsimp only
  rw [if_pos hx]

/-- Worker completion on a ledger whose first entry is the completed job's:
the full case analysis of `check_and_return_event` (`dvm.py:298-318`). -/
theorem check_and_return_head (ext : Ext) (cfg : DVMConfig) (keys : Keys)
    (data : String) (ev : NEvent) (x : JobToWatch) (rest : List JobToWatch)
    (hx : x.event = ev) :
    check_and_return_event ext cfg keys (x :: rest) data ev =
      (if x.is_paid = true then
        (rest, if cfg.SHOW_RESULT_BEFORE_PAYMENT = true then []
          else [send_nostr_reply_event keys data ev])
      else
        if cfg.SHOW_RESULT_BEFORE_PAYMENT = true then
          ({ x with result := data, is_processed := true } :: rest,
            [send_nostr_reply_event keys data ev,
              (send_job_status_reaction ext cfg keys
                ({ x with result := data, is_processed := true } :: rest) ev "success"
                (decide (x.amount ≠ 0)) 0 none).2])
        else
          ({ x with result := data, is_processed := true } :: rest,
            [(send_job_status_reaction ext cfg keys
              ({ x with result := data, is_processed := true } :: rest) ev "success"
              (decide (x.amount ≠ 0)) 0 none).2])) := by
  rw [check_and_return_event]
  rw [show (x :: rest).length + 2 = (rest.length + 2) + 1 from rfl]
  rw [completionLoop_match ext cfg keys data ev (rest.length + 2) 0 (x :: rest) [] x
    (by simp) hx]
  rw [completionMatch]
  simp only [List.set_cons_zero, List.eraseIdx_cons_zero, List.nil_append]
  by_cases hpaid : x.is_paid = true
  · by_cases hshow : cfg.SHOW_RESULT_BEFORE_PAYMENT = true
    · simp [hpaid, hshow]
    · simp [hpaid, hshow, eq_false_of_ne_true hshow]
  · have hpf : x.is_paid = false := eq_false_of_ne_true hpaid
    by_cases hshow : cfg.SHOW_RESULT_BEFORE_PAYMENT = true
    · simp only [hpf, hshow, Bool.true_eq_false, and_false, and_true, if_false, if_true,
        Bool.false_eq_true, ite_false, ite_true, false_and, true_and]
      rw [sjsr_fst_cons_head]
      exact hx
    · have hsf : cfg.SHOW_RESULT_BEFORE_PAYMENT = false := eq_false_of_ne_true hshow
      simp only [hpf, hsf, Bool.true_eq_false, Bool.false_eq_true, and_false, and_true,
        if_false, if_true, ite_false, ite_true, false_and, true_and, and_self]
      rw [sjsr_fst_cons_head]
      exact hx

/-! ## Claims -/

/-- **C7**: in every reachable state of the orchestrator the job ledger
contains at most one `JobToWatch` per request event: the only inserting
operation, `send_job_status_reaction` (`dvm.py:423-432`), first checks
`not any(x.event == original_event for x in self.job_list)` and appends only
when no entry exists, and every other ledger operation replaces an entry in
place (same event) or removes entries. -/
theorem c7_ledger_at_most_one_entry (ext : Ext) (cfg : DVMConfig) (keys : Keys)
    (st : List JobToWatch) (h : Reachable ext cfg keys st) : UniqueEvents st := by
  induction h with
  | init => exact List.Pairwise.nil
  | step _ hs ih =>
    cases hs with
    | nip90 ev => exact uniqueEvents_handle_nip90 ext cfg keys ev ih
    | zap ev => exact uniqueEvents_handle_zap ext cfg keys ev ih
    | completion data ev =>
      exact uniqueEvents_check_and_return_event ext cfg keys data ev ih
    | reaperPaid i x hget => exact uniqueEvents_reaperPayBody ext cfg keys ih hget
    | reaperRemove i => exact uniqueEvents_eraseIdx i ih

/-- Witness for C7: the invariant evaluated at a concrete reachable state
(the ledger after one payment-required request). -/
theorem c7_ledger_at_most_one_entry_witness :
    UniqueEvents (handle_nip90_job_event extC cfgF keysC [] evNoBid).1 :=
  c7_ledger_at_most_one_entry extC cfgF keysC _
    (Reachable.step Reachable.init (Step.nip90 [] evNoBid))

/-- **C10**: every invocation of the status emitter — for any status —
appends a ledger entry for the request event when none exists, with
`is_processed = false`, empty result, timestamp `created_at`, and
`expires = created_at + 24h` (`dvm.py:423-431`); consequently after any
status emission the ledger holds an entry for that request. -/
theorem c10_status_emission_upserts_entry (ext : Ext) (cfg : DVMConfig) (keys : Keys)
    (st : List JobToWatch) (ev : NEvent) (status : String) (ip : Bool) (am : Nat)
    (c0 : Option String) (h : ∀ x ∈ st, x.event ≠ ev) :
    (send_job_status_reaction ext cfg keys st ev status ip am c0).1 =
      st ++ [⟨ev, ev.created_at, (statusOverride st ev status ip am).2,
        (statusOverride st ev status ip am).1, status, "", false,
        (statusInvoice ext cfg status (statusOverride st ev status ip am).1
          (statusOverride st ev status ip am).2).1,
        (statusInvoice ext cfg status (statusOverride st ev status ip am).1
          (statusOverride st ev status ip am).2).2,
        ev.created_at + 60 * 60 * 24⟩] ∧
    ∃ x ∈ (send_job_status_reaction ext cfg keys st ev status ip am c0).1,
      x.event = ev := by
  constructor
  · rw [send_job_status_reaction_fst, buildStatus_newList]
    have hf : st.any (fun x => x.event == ev) = false := by
      simp only [List.any_eq_false]
      intro x hx
      simpa using h x hx
    simp [hf]
  · exact mem_buildStatus_newList ext cfg keys st ev status ip am c0

/-- Witness for C10 on the empty ledger. -/
theorem c10_status_emission_upserts_entry_witness :
    ∃ x ∈ (send_job_status_reaction extC cfgF keysC [] evNoBid "processing"
      true 0 none).1, x.event = evNoBid :=
  (c10_status_emission_upserts_entry extC cfgF keysC [] evNoBid "processing"
    true 0 none (by simp)).2

/-- **C9**: for every request carrying an `encrypted` tag, each feedback
event puts the `p` tag in the outer tag set (`dvm.py:401-402`) and not in
the inner serialized tag list, whose JSON serialization is encrypted to the
requester's key and stored as the event content (`dvm.py:443-453`); and the
reply event's content is likewise encrypted to the requester's key
(`dvm.py:370-372`). -/
theorem c9_encrypted_p_hoisted (ext : Ext) (cfg : DVMConfig) (keys : Keys)
    (st : List JobToWatch) (ev : NEvent) (status : String) (ip : Bool) (am : Nat)
    (c0 : Option String) (rdata : String)
    (h : ∃ t ∈ ev.tags, tagName t = "encrypted") :
    (["p", ev.pubkey] ∈ (buildStatus ext cfg keys st ev status ip am c0).outerTags) ∧
    (∀ t ∈ (buildStatus ext cfg keys st ev status ip am c0).innerTags, tagName t ≠ "p") ∧
    ((buildStatus ext cfg keys st ev status ip am c0).content =
      nip04_encrypt keys.sk ev.pubkey
        (jsonDumpTags (buildStatus ext cfg keys st ev status ip am c0).innerTags)) ∧
    ((send_job_status_reaction ext cfg keys st ev status ip am c0).2 =
      Out.feedback status (buildStatus ext cfg keys st ev status ip am c0).reaction
        ⟨"", keys.pk, KIND_FEEDBACK,
          (buildStatus ext cfg keys st ev status ip am c0).outerTags,
          (buildStatus ext cfg keys st ev status ip am c0).content, 0⟩) ∧
    (outContent (send_nostr_reply_event keys rdata ev) =
      nip04_encrypt keys.sk ev.pubkey rdata) := by
  have hfil : (ev.tags.filter (fun t => tagName t = "encrypted")) ≠ [] := by
    obtain ⟨t, ht, he⟩ := h
    intro hnil
    have := List.filter_eq_nil_iff.mp hnil t ht
    simp [he] at this
  refine ⟨?_, ?_, ?_, rfl, ?_⟩
  · simp only [buildStatus]
    simp [hfil]
  · intro t ht
    simp only [buildStatus] at ht
    simp [hfil] at ht
    rcases ht with ht | rfl
    · split at ht
      · split at ht <;> simp at ht <;>
          rcases ht with rfl | rfl | rfl | rfl <;> simp [tagName]
      · simp at ht
        rcases ht with rfl | rfl | rfl <;> simp [tagName]
    · simp [tagName]
  · simp only [buildStatus]
    simp [hfil]
  · simp only [send_nostr_reply_event, outContent]
    simp [hfil]

/-- Witness for C9 on a concrete encrypted request. -/
theorem c9_encrypted_p_hoisted_witness :
    ["p", evEnc.pubkey] ∈
      (buildStatus extC cfgF keysC [] evEnc "payment-required" false 5 none).outerTags :=
  (c9_encrypted_p_hoisted extC cfgF keysC [] evEnc "payment-required" false 5 none
    "secretresult" ⟨["encrypted"], by decide, rfl⟩).1

/-- **C5**: when the worker for the dispatched task raises during `run`
(`dvm.py:507-527`), a single error feedback whose reaction is exactly
`"An error occurred"` is emitted, and exactly one refund payment
(`zaprequest` with memo `"Couldn't finish job, returning sats"`, then
`pay_bolt11_ln_bits`) is attempted if and only if the job was paid
(`amount > 0`), `LNBITS_ADMIN_KEY` is non-empty, and the requester has a
lightning address (`zaprequest` returns an invoice); the payment's own
failure is swallowed (`dvm.py:522-525`, the result is never consulted). -/
theorem c5_worker_error_generic_message_and_refund (ext : Ext) (cfg : DVMConfig)
    (keys : Keys) (st : List JobToWatch) (ev : NEvent) (amount : Nat)
    (pre : List DVMDescriptor) (dvm : DVMDescriptor) (post : List DVMDescriptor)
    (msg : String)
    (hk : (KIND_NIP90_EXTRACT_TEXT ≤ ev.kind ∧ ev.kind ≤ KIND_NIP90_GENERIC) ∨
      ev.kind = KIND_DM)
    (hS : cfg.SUPPORTED_DVMS = pre ++ dvm :: post)
    (hpre : ∀ d ∈ pre, d.TASK ≠ ext.get_task ev)
    (hd : ext.get_task ev = dvm.TASK)
    (herr : tryRunDvm ext cfg dvm ev = .error msg) :
    do_work ext cfg keys st ev amount =
      ((send_job_status_reaction ext cfg keys st ev "error" true 0
          (some "An error occurred")).1,
        (send_job_status_reaction ext cfg keys st ev "error" true 0
          (some "An error occurred")).2 :: refundOuts ext cfg ev amount) ∧
    (do_work ext cfg keys st ev amount).2.countP
      (isErrorFeedbackMsg "An error occurred") = 1 ∧
    (do_work ext cfg keys st ev amount).2.countP isPayBolt =
      (if 0 < amount ∧ cfg.LNBITS_ADMIN_KEY ≠ "" ∧
          (ext.zaprequest (ext.get_or_add_user ev.pubkey).lud16 amount
            "Couldn't finish job, returning sats").isSome then 1 else 0) := by
  have h1 : do_work ext cfg keys st ev amount =
      ((send_job_status_reaction ext cfg keys st ev "error" true 0
          (some "An error occurred")).1,
        (send_job_status_reaction ext cfg keys st ev "error" true 0
          (some "An error occurred")).2 :: refundOuts ext cfg ev amount) := by
    rw [do_work, if_pos hk, hS,
      doWorkLoop_skip ext cfg keys (ext.get_task ev) ev amount pre (dvm :: post) st hpre,
      doWorkLoop, if_pos hd, herr]
  refine ⟨h1, ?_, ?_⟩
  · rw [h1]
    rw [List.countP_cons, refundOuts_countP_errmsg]
    have hr : isErrorFeedbackMsg "An error occurred"
        (send_job_status_reaction ext cfg keys st ev "error" true 0
          (some "An error occurred")).2 = true := by
      simp only [send_job_status_reaction, isErrorFeedbackMsg, buildStatus_reaction,
        build_status_reaction]
      simp
    rw [hr]
    rfl
  · rw [h1, List.countP_cons, refundOuts_countP_pay]
    have hr : isPayBolt (send_job_status_reaction ext cfg keys st ev "error" true 0
        (some "An error occurred")).2 = false := rfl
    rw [hr]
    simp

/-- Witness for C5: worker raises on a 40-sat paid job; one generic error
feedback is counted. -/
theorem c5_worker_error_generic_message_and_refund_witness :
    (do_work extErr cfgF keysC [] evC 40).2.countP
      (isErrorFeedbackMsg "An error occurred") = 1 :=
  (c5_worker_error_generic_message_and_refund extErr cfgF keysC [] evC 40 [] dvmC []
    "boom" (by decide) rfl (by simp) rfl rfl).2.1

/-- **C6**: an inbound zap targeting a feedback event of a supported request
whose paid `invoice_amount` is strictly below the quoted amount (the
feedback's `amount` tag, millisats to sats) yields exactly one
`payment-rejected` feedback (`dvm.py:242-246`) and no worker invocation: no
reply event and no payment side effects. -/
theorem c6_underpayment_rejected (ext : Ext) (cfg : DVMConfig) (keys : Keys)
    (st : List JobToWatch) (zap ze je : NEvent) (inv q : Nat)
    (sender msg : String) (anon : Bool)
    (hp : ext.parse_zap_event_tags zap = .ok (inv, some ze, sender, msg, anon))
    (hk : ze.kind = KIND_FEEDBACK)
    (hloop : zapTagLoop ext ze.tags 0 none = some (q, some je))
    (hsup : (ext.check_task_is_supported (some je)).1 = true)
    (hlt : inv < q) :
    handle_zap ext cfg keys st zap =
      ((send_job_status_reaction ext cfg keys st je "payment-rejected" false inv none).1,
        [(send_job_status_reaction ext cfg keys st je "payment-rejected" false inv none).2]) ∧
    (handle_zap ext cfg keys st zap).2.countP isReply = 0 ∧
    (handle_zap ext cfg keys st zap).2.countP isPayBolt = 0 ∧
    (handle_zap ext cfg keys st zap).2.countP (isFeedbackStatus "payment-rejected") = 1 := by
  have h1 : handle_zap ext cfg keys st zap =
      ((send_job_status_reaction ext cfg keys st je "payment-rejected" false inv none).1,
        [(send_job_status_reaction ext cfg keys st je "payment-rejected" false inv none).2]) := by
    rw [handle_zap, hp]
    dsimp only
    rw [if_pos hk, hloop]
    dsimp only
    rw [if_pos hsup, if_neg (not_le.mpr hlt)]
  refine ⟨h1, ?_, ?_, ?_⟩ <;> rw [h1]
  · rfl
  · rfl
  · simp only [send_job_status_reaction, List.countP_cons, List.countP_nil,
      isFeedbackStatus]
    simp

/-- Witness for C6: a 3-sat zap against a 5-sat quote is rejected with no
reply. -/
theorem c6_underpayment_rejected_witness :
    (handle_zap extZ3 cfgF keysC [jProc] zapEv).2.countP isReply = 0 :=
  (c6_underpayment_rejected extZ3 cfgF keysC [jProc] zapEv feEv evC 3 5 "payerpk" ""
    false rfl rfl (by decide) rfl (by decide)).2.1

/-- **C8**: on the balance path (p-tag equals our pubkey, no free path, and
`user.balance ≥ amount`), the stored balance becomes
`max(0, balance − amount)` — which is never negative and, under the
precondition, equals exactly `balance − amount` — `lastactive` is set to the
current time in the store update, a `processing` status is emitted, and
`do_work` is dispatched with the request (`dvm.py:143-157`). -/
theorem c8_balance_path_debits_exactly (ext : Ext) (cfg : DVMConfig) (keys : Keys)
    (st : List JobToWatch) (ev0 ev : NEvent) (amount : Nat)
    (hdec : ext.check_and_decrypt_tags ev0 = some ev)
    (hbl : (ext.get_or_add_user ev.pubkey).isblacklisted = false)
    (hwl : (ext.get_or_add_user ev.pubkey).iswhitelisted = false)
    (hsup : (ext.check_task_is_supported (some ev)).1 = true)
    (hamt : get_amount_per_task cfg (ext.check_task_is_supported (some ev)).2
      (ext.input_data_file_duration ev) = some amount)
    (hcashu : lastTagValue ev.tags "cashu" "" = "")
    (hfree : cfg.SUPPORTED_DVMS.any (fun d =>
      d.TASK == (ext.check_task_is_supported (some ev)).2 &&
      d.FIX_COST == 0 && d.PER_UNIT_COST == 0) = false)
    (hp : lastTagValue ev.tags "p" "" = cfg.PUBLIC_KEY)
    (hbal : (amount : Int) ≤ (ext.get_or_add_user ev.pubkey).balance) :
    handle_nip90_job_event ext cfg keys st ev0 =
      ((do_work ext cfg keys
          (send_job_status_reaction ext cfg keys st ev "processing" true 0 none).1
          ev amount).1,
        Out.updateSql (ext.get_or_add_user ev.pubkey).npub
          (max ((ext.get_or_add_user ev.pubkey).balance - (amount : Int)) 0)
          (ext.get_or_add_user ev.pubkey).iswhitelisted
          (ext.get_or_add_user ev.pubkey).isblacklisted
          (ext.get_or_add_user ev.pubkey).nip05
          (ext.get_or_add_user ev.pubkey).lud16
          (ext.get_or_add_user ev.pubkey).name ext.timestamp_now ::
        (send_job_status_reaction ext cfg keys st ev "processing" true 0 none).2 ::
        (do_work ext cfg keys
          (send_job_status_reaction ext cfg keys st ev "processing" true 0 none).1
          ev amount).2) ∧
    max ((ext.get_or_add_user ev.pubkey).balance - (amount : Int)) 0 =
      (ext.get_or_add_user ev.pubkey).balance - (amount : Int) ∧
    0 ≤ max ((ext.get_or_add_user ev.pubkey).balance - (amount : Int)) 0 := by
  refine ⟨?_, max_eq_left (sub_nonneg.mpr hbal), le_max_right _ _⟩
  rw [handle_nip90_job_event, hdec]
  dsimp only
  rw [if_neg (by rw [hbl]; exact Bool.false_ne_true), if_pos hsup, hamt]
  dsimp only
  rw [if_neg (by rw [hcashu]; exact fun hh => hh rfl)]
  rw [nip90Paths]
  rw [if_neg ?hnofree]
  case hnofree =>
    rintro ⟨hw | hf | hc, -⟩
    · exact Bool.false_ne_true (hwl ▸ hw)
    · exact Bool.false_ne_true (hfree ▸ hf)
    · exact Bool.false_ne_true hc
  rw [if_pos ⟨hp, hbal⟩]

/-- Witness for C8: 100-sat balance, 5-sat task, p-tagged to us. -/
theorem c8_balance_path_debits_exactly_witness :
    max ((extC.get_or_add_user evP.pubkey).balance - ((5 : Nat) : Int)) 0 =
      (extC.get_or_add_user evP.pubkey).balance - ((5 : Nat) : Int) :=
  (c8_balance_path_debits_exactly extC cfgF keysC [] evP evP 5 rfl rfl rfl rfl
    (by decide) rfl (by decide) rfl (by decide)).2.1

/-- **C2** (amended): on worker completion for a job whose ledger entry is
the first scanned (in particular the only entry), with
`SHOW_RESULT_BEFORE_PAYMENT = false`: if the job is already paid, the reply
event is published and the ledger entry removed, but — contrary to the
original claim — no success status is emitted (`dvm.py:308-311` emits
`success` only when `not is_paid`); if the job is not yet paid, only a
success status is emitted and the reply is withheld, the entry remaining
with the result cached and `is_processed = true`. -/
theorem c2_amended_completion_show_false (ext : Ext) (cfg : DVMConfig) (keys : Keys)
    (data : String) (ev : NEvent) (x : JobToWatch) (rest : List JobToWatch)
    (hshow : cfg.SHOW_RESULT_BEFORE_PAYMENT = false)
    (hx : x.event = ev) :
    (x.is_paid = true →
      check_and_return_event ext cfg keys (x :: rest) data ev =
        (rest, [send_nostr_reply_event keys data ev]) ∧
      (check_and_return_event ext cfg keys (x :: rest) data ev).2.countP
        (isFeedbackStatus "success") = 0) ∧
    (x.is_paid = false →
      check_and_return_event ext cfg keys (x :: rest) data ev =
        ({ x with result := data, is_processed := true } :: rest,
          [(send_job_status_reaction ext cfg keys
            ({ x with result := data, is_processed := true } :: rest) ev "success"
            (decide (x.amount ≠ 0)) 0 none).2]) ∧
      (check_and_return_event ext cfg keys (x :: rest) data ev).2.countP
        isReply = 0) := by
  have hh := check_and_return_head ext cfg keys data ev x rest hx
  constructor
  · intro hp
    rw [hh, if_pos hp, if_neg (by rw [hshow]; exact Bool.false_ne_true)]
    exact ⟨rfl, rfl⟩
  · intro hp
    rw [hh, if_neg (by rw [hp]; exact Bool.false_ne_true),
      if_neg (by rw [hshow]; exact Bool.false_ne_true)]
    exact ⟨rfl, rfl⟩

/-- Witness for the amended C2: unpaid job completes, only a success
feedback is emitted and the entry is kept with the cached result. -/
theorem c2_amended_completion_show_false_witness :
    check_and_return_event extC cfgF keysC [jUnpaid] "res" evC =
      ({ jUnpaid with result := "res", is_processed := true } :: [],
        [(send_job_status_reaction extC cfgF keysC
          ({ jUnpaid with result := "res", is_processed := true } :: []) evC "success"
          (decide (jUnpaid.amount ≠ 0)) 0 none).2]) :=
  (((c2_amended_completion_show_false extC cfgF keysC "res" evC jUnpaid [] rfl
    rfl).2) rfl).1

/-- **C1** (code bug).  The claim states that every completed job publishes
exactly one reply event of kind `request.kind + 1000` regardless of which
other entries the ledger holds.  The code violates this: the block at
`dvm.py:320-346` is dedented to the loop body (after the `break` of the
matching branch), so it runs for every ledger entry that does not match the
completed event.  Here, with `SHOW_RESULT_BEFORE_PAYMENT = false` and a
ledger holding another request's entry before the completed job's paid
entry, worker completion publishes two reply events (one stray, one real)
and no other output. -/
theorem c1_stray_block_duplicates_reply :
    (check_and_return_event extC cfgF keysC [jOther, jPaid] "res" evC).2.countP isReply = 2 ∧
    (check_and_return_event extC cfgF keysC [jOther, jPaid] "res" evC).2.length = 2 := by
  constructor <;> decide

/-- **C2** (counterexample).  The claim states that on worker completion of
an already-paid job with `SHOW_RESULT_BEFORE_PAYMENT = false`, a success
status is emitted alongside the reply.  It is not: `dvm.py:308-311` emits
`success` only when `not is_paid`, so the paid branch publishes the reply,
removes the entry, and emits no success feedback. -/
theorem c2_paid_completion_emits_no_success :
    (check_and_return_event extC cfgF keysC [jPaid] "res" evC).2.countP (isFeedbackStatus "success") = 0 ∧
    (check_and_return_event extC cfgF keysC [jPaid] "res" evC).2.countP isReply = 1 ∧
    (check_and_return_event extC cfgF keysC [jPaid] "res" evC).1 = [] := by
  refine ⟨by decide, by decide, by decide⟩

/-- **C3** (counterexample).  The claim states that a sufficient zap for a
ledger entry with `is_processed = true` marks it paid and publishes the
cached result.  With `SHOW_RESULT_BEFORE_PAYMENT = true` no reply is
published at zap time: `dvm.py:313-314` only removes the entry (the reply
was already published at completion time), so the zap produces a single
`processing` feedback and no reply event. -/
theorem c3_processed_zap_show_true_publishes_nothing :
    (handle_zap extZ cfgT keysC [jProc] zapEv).2.countP isReply = 0 ∧
    (handle_zap extZ cfgT keysC [jProc] zapEv).2.countP (isFeedbackStatus "processing") = 1 ∧
    (handle_zap extZ cfgT keysC [jProc] zapEv).1 = [] := by
  refine ⟨by decide, by decide, by decide⟩

/-- **C3** (amended): for a sufficient zap on a feedback of a supported
request, a `processing` status is emitted and then (`dvm.py:224-240`): if the
ledger entry (taken here as the first entry) is processed, it is marked paid
and removed, and the cached result is published only when
`SHOW_RESULT_BEFORE_PAYMENT = false` — with `true` it was already published
at completion time and nothing more is sent (contrary to the original
claim); if the entry is unprocessed it is removed and the job dispatched
freshly; if no entry exists, the `processing` emission auto-appends one,
which is immediately popped, and the job is dispatched freshly. -/
theorem c3_amended_zap_settlement (ext : Ext) (cfg : DVMConfig) (keys : Keys)
    (st : List JobToWatch) (zap ze je : NEvent) (inv q : Nat)
    (sender msg : String) (anon : Bool)
    (hp : ext.parse_zap_event_tags zap = .ok (inv, some ze, sender, msg, anon))
    (hk : ze.kind = KIND_FEEDBACK)
    (hloop : zapTagLoop ext ze.tags 0 none = some (q, some je))
    (hsup : (ext.check_task_is_supported (some je)).1 = true)
    (hle : q ≤ inv) :
    (∀ x rest, st = x :: rest → x.event = je → x.is_processed = true →
      handle_zap ext cfg keys st zap =
        (rest, (send_job_status_reaction ext cfg keys st je "processing" true 0 none).2 ::
          (if cfg.SHOW_RESULT_BEFORE_PAYMENT = true then []
            else [send_nostr_reply_event keys x.result je]))) ∧
    (∀ x rest, st = x :: rest → x.event = je → x.is_processed = false →
      handle_zap ext cfg keys st zap =
        ((do_work ext cfg keys rest je inv).1,
          (send_job_status_reaction ext cfg keys st je "processing" true 0 none).2 ::
            (do_work ext cfg keys rest je inv).2)) ∧
    ((∀ y ∈ st, y.event ≠ je) →
      handle_zap ext cfg keys st zap =
        ((do_work ext cfg keys st je inv).1,
          (send_job_status_reaction ext cfg keys st je "processing" true 0 none).2 ::
            (do_work ext cfg keys st je inv).2)) := by
  have hz : handle_zap ext cfg keys st zap = zapSettle ext cfg keys st je inv := by
    rw [handle_zap, hp]
    dsimp only
    rw [if_pos hk, hloop]
    dsimp only
    rw [if_pos hsup, if_pos hle]
  refine ⟨?_, ?_, ?_⟩
  · rintro x rest rfl hx hproc
    rw [hz, zapSettle]
    dsimp only
    rw [sjsr_fst_cons_head ext cfg keys x rest je "processing" true 0 none hx]
    rw [List.findIdx?_cons]
    have hpx : (x.event == je) = true := by simp [hx]
    rw [hpx, if_pos rfl]
    dsimp only
    rw [List.get?_cons_zero]
    dsimp only
    rw [if_pos hproc, List.set_cons_zero]
    rw [check_and_return_head ext cfg keys x.result je { x with is_paid := true } rest hx]
    rw [if_pos rfl]
  · rintro x rest rfl hx hproc
    rw [hz, zapSettle]
    dsimp only
    rw [sjsr_fst_cons_head ext cfg keys x rest je "processing" true 0 none hx]
    rw [List.findIdx?_cons]
    have hpx : (x.event == je) = true := by simp [hx]
    rw [hpx, if_pos rfl]
    dsimp only
    rw [List.get?_cons_zero]
    dsimp only
    rw [if_neg (by rw [hproc]; exact Bool.false_ne_true), List.eraseIdx_cons_zero]
  · intro hnone
    have hany : st.any (fun y => y.event == je) = false := by
      simp only [List.any_eq_false]
      intro y hy
      simpa using hnone y hy
    rw [hz, zapSettle]
    dsimp only
    rw [send_job_status_reaction_fst, buildStatus_newList, hany]
    rw [if_neg Bool.false_ne_true]
    rw [findIdx?_concat_of_forall (fun y => y.event == je) st _
      (fun y hy => by simpa using hnone y hy) (by simp)]
    dsimp only
    rw [get?_concat]
    dsimp only
    rw [if_neg Bool.false_ne_true, eraseIdx_concat]

/-- Witness for the amended C3: no ledger entry, sufficient zap — the job is
dispatched freshly and the ledger is left unchanged (empty). -/
theorem c3_amended_zap_settlement_witness :
    handle_zap extZ cfgF keysC [] zapEv =
      ((do_work extZ cfgF keysC [] evC 5).1,
        (send_job_status_reaction extZ cfgF keysC [] evC "processing" true 0 none).2 ::
          (do_work extZ cfgF keysC [] evC 5).2) :=
  (c3_amended_zap_settlement extZ cfgF keysC [] zapEv feEv evC 5 5 "payerpk" "" false
    rfl rfl (by decide) rfl (by decide)).2.2 (by simp)

/-- **C4** (counterexample).  The claim states that a request carrying a bid
with `bid > 0` and `bid/1000 < amount` still receives a `payment-required`
feedback quoting the server rate.  It does not: `dvm.py:169-174` only emits
`payment-required` when `bid_offer >= amount`, and has no else branch, so an
underbid request produces no output at all and no ledger entry. -/
theorem c4_underbid_emits_nothing :
    handle_nip90_job_event extC cfgF keysC [] evBid = ([], []) := by
  decide

/-- **C4** (amended): a request that reaches the payment-required step
carrying a bid tag with `bid > 0` and `bid/1000 < amount` receives no
feedback at all — the handler returns silently with ledger and outputs
unchanged; `payment-required` quoting the server rate is emitted only when
no positive bid is present or `bid/1000 ≥ amount` (`dvm.py:169-181`). -/
theorem c4_amended_underbid_silent (ext : Ext) (cfg : DVMConfig) (keys : Keys)
    (st : List JobToWatch) (ev0 ev : NEvent) (amount : Nat)
    (hdec : ext.check_and_decrypt_tags ev0 = some ev)
    (hbl : (ext.get_or_add_user ev.pubkey).isblacklisted = false)
    (hwl : (ext.get_or_add_user ev.pubkey).iswhitelisted = false)
    (hsup : (ext.check_task_is_supported (some ev)).1 = true)
    (hamt : get_amount_per_task cfg (ext.check_task_is_supported (some ev)).2
      (ext.input_data_file_duration ev) = some amount)
    (hcashu : lastTagValue ev.tags "cashu" "" = "")
    (hfree : cfg.SUPPORTED_DVMS.any (fun d =>
      d.TASK == (ext.check_task_is_supported (some ev)).2 &&
      d.FIX_COST == 0 && d.PER_UNIT_COST == 0) = false)
    (hpe : lastTagValue ev.tags "p" "" = "")
    (hPK : cfg.PUBLIC_KEY ≠ "")
    (hbid0 : 0 < ev.tags.foldl (fun acc t =>
      if tagName t = "bid" then parseNat (tagValue t) else acc) 0)
    (hlow : (ev.tags.foldl (fun acc t =>
      if tagName t = "bid" then parseNat (tagValue t) else acc) 0) / 1000 < amount) :
    handle_nip90_job_event ext cfg keys st ev0 = (st, []) := by
  rw [handle_nip90_job_event, hdec]
  dsimp only
  rw [if_neg (by rw [hbl]; exact Bool.false_ne_true), if_pos hsup, hamt]
  dsimp only
  rw [if_neg (by rw [hcashu]; exact fun hh => hh rfl)]
  rw [nip90Paths]
  rw [if_neg ?hnofree]
  case hnofree =>
    rintro ⟨hw | hf | hc, -⟩
    · exact Bool.false_ne_true (hwl ▸ hw)
    · exact Bool.false_ne_true (hfree ▸ hf)
    · exact Bool.false_ne_true hc
  rw [if_neg ?hnobal]
  case hnobal =>
    rintro ⟨hpk, -⟩
    rw [hpe] at hpk
    exact hPK hpk.symm
  rw [if_pos (Or.inl hpe)]
  dsimp only
  rw [if_pos hbid0, if_neg (not_le.mpr hlow)]

/-- Witness for the amended C4: `evBid` bids 1000 millisats (1 sat) against
the 5-sat rate; nothing is emitted. -/
theorem c4_amended_underbid_silent_witness :
    handle_nip90_job_event extC cfgF keysC [jOther] evBid = ([jOther], []) :=
  c4_amended_underbid_silent extC cfgF keysC [jOther] evBid evBid 5 rfl rfl rfl rfl
    (by decide) rfl (by decide) rfl (by decide) (by decide) (by decide)

end NostrDVM
